import Mathlib

/-!
Shallow embedding of the request/response translator core of
rusty-roproxy (src/main.rs): the `handle_request` function, the
`ErrorResponse` responder and the `ProxyResponse` value it produces.

Modelling choices, all read off the source:
* Header lists are ordered `(name, value)` pairs of strings; header
  values are modelled as strings, i.e. values for which reqwest's
  `HeaderValue::to_str` succeeds, since no claim concerns non-UTF-8
  header values.
* Byte bodies are `List UInt8`.
* The network is an oracle `OutboundUpstreamRequest → DispatchOutcome`
  passed to `handle_request`; `tokio::time::timeout` expiring is the
  `timeout` outcome, a reqwest send error is `sendError`, and a
  successful exchange carries the upstream status, headers and the
  result of reading the response body.
* `anyhow` errors are identified by the call site that creates them
  (the `ProxyError` inductive); `errorMessage` records the message or
  context string attached at each site.
* Rocket `Status.from_code` returns `some` exactly for codes 100..=599
  (Rocket 0.5), and `Status::InternalServerError` is code 500.
* Rocket `data.open(5.mebibytes()).into_bytes()` yields an I/O error or
  the body bytes capped at the limit; the code never inspects the
  `Capped` completeness flag, which the embedding reflects by `take`.
-/

namespace RoProxy

/-- An ordered list of (header-name, header-value) pairs. -/
abbrev Headers := List (String × String)

/-- Rocket HTTP methods relevant to `handle_request`; the wildcard arm of
the `match method` in the source covers every method outside the four
routed ones, represented here by the remaining constructors. -/
inductive Method
  | Get | Post | Put | Delete | Options | Head | Trace | Connect | Patch
deriving DecidableEq

/-- The error construction sites of `handle_request` (each an `anyhow!`
or `.context(..)` call), named after the error kinds of the design. -/
inductive ProxyError
  | unsupportedMethod
  | bodyReadFailure
  | upstreamTimeout
  | upstreamUnreachable
  | responseBodyReadFailure
deriving DecidableEq

/-- The message or context string the source attaches at each error
construction site (the underlying cause an `ErrorResponse` carries). -/
def errorMessage : ProxyError → String
  | .unsupportedMethod => "Unsupported method"
  | .bodyReadFailure => "Failed to read request body"
  | .upstreamTimeout => "Request to Roblox timed out"
  | .upstreamUnreachable => "Failed to send HTTP request"
  | .responseBodyReadFailure => "Failed to read response body"

/-- The wire-visible part of the response `ErrorResponse::respond_to`
builds: status, content type and body. -/
structure ErrorResponseOut where
  status : Nat
  contentType : String
  body : String
deriving DecidableEq

/-- `ErrorResponse::respond_to`: logs the wrapped error and answers with
status 500 (`Status::InternalServerError`), `ContentType::Plain` and the
fixed body text, whatever the wrapped error is. -/
def ErrorResponse.respond_to (_e : ProxyError) : ErrorResponseOut :=
  { status := 500, contentType := "text/plain", body := "Internal Server Error" }

/-- The `excluded_headers` array of `handle_request`. -/
def excluded_headers : List String :=
  ["host", "connection", "content-length", "x-frame-options", "transfer-encoding"]

/-- `5_i32.mebibytes()` in bytes: the cap passed to `data.open`. -/
def body_limit : Nat := 5 * 1024 * 1024

/-- The inbound `Data` body stream: its bytes, and whether reading it
fails with an I/O error (`into_bytes` returning `Err`). -/
structure InboundData where
  bytes : List UInt8
  readFails : Bool

/-- The upstream-directed request accumulated in `request_builder`:
method, URL, the headers added to the builder in order, and the body. -/
structure OutboundUpstreamRequest where
  method : Method
  url : String
  headers : Headers
  body : Option (List UInt8)
deriving DecidableEq

/-- The two debug headers added to `request_builder` before the
forwarding loop. -/
def injected_headers : Headers :=
  [("Roblox-Proxy-Debug", "true"), ("Accept", "*/*")]

/-- URL construction: `format!("https://www.roblox.com/{}", path_str)`
with `path_str` the slash-joined path segments, then `format!("{}?{}",
base_url, q)` when a query string is present. -/
def buildUrl (path : List String) (query : Option String) : String :=
  let base_url := "https://www.roblox.com/" ++ String.intercalate "/" path
  match query with
  | some q => base_url ++ "?" ++ q
  | none => base_url

/-- Rust `str::to_lowercase` restricted to ASCII, which covers every
legal HTTP header name: written as a structural map over the character
list so that concrete instances reduce inside the kernel. -/
def lowerName (s : String) : String := ⟨s.data.map Char.toLower⟩

/-- The header filtering loop shared by both directions: keep a header
iff its lowercased name is not in `excluded_headers`. -/
def forwardHeaders (hs : Headers) : Headers :=
  hs.filter (fun h => !(excluded_headers.contains (lowerName h.1)))

/-- The `match method` arms of `handle_request`: only GET, POST, PUT and
DELETE select a client call; everything else is the wildcard arm. -/
def supportedMethod : Method → Bool
  | .Get | .Post | .Put | .Delete => true
  | _ => false

/-- The request-building prefix of `handle_request`, up to but not
including `request_builder.send()`: method dispatch, URL construction,
debug-header injection, header forwarding and body reading (capped at
`body_limit` by `data.open`, with the completeness flag ignored, as in
the source). -/
def buildRequest (method : Method) (path : List String) (query : Option String)
    (data : Option InboundData) (inHeaders : Headers) :
    Except ProxyError OutboundUpstreamRequest :=
  if supportedMethod method then
    match data with
    | none =>
      .ok ⟨method, buildUrl path query, injected_headers ++ forwardHeaders inHeaders, none⟩
    | some d =>
      if d.readFails then
        .error .bodyReadFailure
      else
        .ok ⟨method, buildUrl path query, injected_headers ++ forwardHeaders inHeaders,
             some (d.bytes.take body_limit)⟩
  else
    .error .unsupportedMethod

/-- What the network does with the dispatched request: the timeout
expires, the send fails, or headers arrive with `status`/`headers` and
the response body read yields bytes or an error. -/
inductive DispatchOutcome
  | timeout
  | sendError
  | ok (status : Nat) (headers : Headers) (body : Except Unit (List UInt8))

/-- Rocket `Status::from_code`: `some` exactly for codes 100..=599. -/
def Status.from_code (code : Nat) : Option Nat :=
  if 100 ≤ code ∧ code ≤ 599 then some code else none

/-- reqwest `HeaderMap::get`: first value stored under the name,
matched case-insensitively. -/
def headerGet (hs : Headers) (name : String) : Option String :=
  (hs.find? (fun h => lowerName h.1 == lowerName name)).map (fun h => h.2)

/-- The `ProxyResponse` struct `handle_request` returns. -/
structure ProxyResponse where
  status : Nat
  content_type : String
  body : List UInt8
  headers : Headers
deriving DecidableEq

/-- `handle_request`: build the outbound request, dispatch it through
the oracle, and translate the upstream response — status normalized by
`Status::from_code(..).unwrap_or(Status::InternalServerError)`,
content type from the upstream `content-type` header or the
`application/octet-stream` default, headers filtered through
`excluded_headers`, body copied verbatim. -/
def handle_request (method : Method) (path : List String) (query : Option String)
    (data : Option InboundData) (inHeaders : Headers)
    (upstream : OutboundUpstreamRequest → DispatchOutcome) :
    Except ProxyError ProxyResponse :=
  match buildRequest method path query data inHeaders with
  | .error e => .error e
  | .ok req =>
    match upstream req with
    | .timeout => .error .upstreamTimeout
    | .sendError => .error .upstreamUnreachable
    | .ok upStatus upHeaders upBody =>
      let status := (Status.from_code upStatus).getD 500
      let content_type := (headerGet upHeaders "content-type").getD "application/octet-stream"
      let response_headers := forwardHeaders upHeaders
      match upBody with
      | .error _ => .error .responseBodyReadFailure
      | .ok bodyBytes => .ok ⟨status, content_type, bodyBytes, response_headers⟩

/-- A successful `buildRequest` always carries the injected headers
followed by the filtered inbound headers. -/
theorem buildRequest_ok_headers {method path query data inHeaders req}
    (h : buildRequest method path query data inHeaders = .ok req) :
    req.headers = injected_headers ++ forwardHeaders inHeaders := by
  unfold buildRequest at h
  split at h
  · cases data with
    | none => cases h; rfl
    | some d =>
      by_cases hd : d.readFails <;> simp [hd] at h
      cases h; rfl
  · cases h

/-- A successful `handle_request` against an always-responding upstream
is exactly the translated upstream response. -/
theorem handle_request_ok {method path query data inHeaders upStatus upHeaders bodyBytes resp}
    (h : handle_request method path query data inHeaders
          (fun _ => .ok upStatus upHeaders (.ok bodyBytes)) = .ok resp) :
    resp = ⟨(Status.from_code upStatus).getD 500,
            (headerGet upHeaders "content-type").getD "application/octet-stream",
            bodyBytes, forwardHeaders upHeaders⟩ := by
  unfold handle_request at h
  cases hb : buildRequest method path query data inHeaders with
  | error e => rw [hb] at h; cases h
  | ok req =>
    rw [hb] at h
    injection h with h
    exact h.symm

/-- Membership in the filtered header list. -/
theorem mem_forwardHeaders {hs : Headers} {p : String × String} :
    p ∈ forwardHeaders hs ↔ p ∈ hs ∧ excluded_headers.contains (lowerName p.1) = false := by
  simp [forwardHeaders, List.mem_filter]

/-- A name the deny list does not contain is none of its entries. -/
theorem ne_of_contains_false {s : String}
    (h : excluded_headers.contains s = false) :
    s ≠ "host" ∧ s ≠ "connection" ∧ s ≠ "content-length" ∧
      s ≠ "x-frame-options" ∧ s ≠ "transfer-encoding" := by
  refine ⟨?_, ?_, ?_, ?_, ?_⟩ <;> rintro rfl <;> revert h <;> decide

/-- C1 as written fails: every error kind is answered through
`ErrorResponse::respond_to`, which uses status 500 unconditionally, so
an unsupported method (here PATCH) yields 500, not the claimed 405. -/
theorem C1_counterexample :
    handle_request .Patch [] none none [] (fun _ => .timeout)
        = .error .unsupportedMethod
    ∧ (ErrorResponse.respond_to .unsupportedMethod).status = 500
    ∧ (500 : Nat) ≠ 405 :=
  ⟨rfl, rfl, by decide⟩

/-- C1 amended: every inbound call that ends in an error — whichever of
the five kinds — is mapped to outbound status 500 with `text/plain`
content type and the body `Internal Server Error`. -/
theorem C1_error_mapping (method : Method) (path : List String) (query : Option String)
    (data : Option InboundData) (inHeaders : Headers)
    (upstream : OutboundUpstreamRequest → DispatchOutcome) (e : ProxyError)
    (_h : handle_request method path query data inHeaders upstream = .error e) :
    ErrorResponse.respond_to e = ⟨500, "text/plain", "Internal Server Error"⟩ :=
  rfl

/-- Applies `C1_error_mapping` to the concrete PATCH call, whose
dispatch attempt errors with `unsupportedMethod`. -/
theorem C1_error_mapping_witness :
    ErrorResponse.respond_to .unsupportedMethod
      = ⟨500, "text/plain", "Internal Server Error"⟩ :=
  C1_error_mapping .Patch [] none none [] (fun _ => .timeout) .unsupportedMethod rfl

/-- C2 as written fails: a body one byte over the 5 MiB cap is not
rejected with `PayloadTooLarge`; `data.open(5.mebibytes())` silently
truncates it to the cap and the request proceeds to the upstream. -/
theorem C2_counterexample :
    buildRequest .Post ["a"] none
        (some ⟨List.replicate (5242880 + 1) (0 : UInt8), false⟩) []
      = .ok ⟨.Post, "https://www.roblox.com/a", injected_headers,
             some (List.replicate 5242880 (0 : UInt8))⟩
    ∧ handle_request .Post ["a"] none
        (some ⟨List.replicate (5242880 + 1) (0 : UInt8), false⟩) []
        (fun _ => .ok 200 [] (.ok []))
      = .ok ⟨200, "application/octet-stream", [], []⟩ := by
  constructor
  · show (if supportedMethod .Post = true then _ else _) = _
    simp only [supportedMethod, if_true]
    norm_num [body_limit, List.take_replicate, forwardHeaders, buildUrl]
    decide
  · rfl

/-- C2 amended: when the body stream reads without an I/O error, a body
of at most the 5 MiB ceiling (in particular one of exactly the ceiling)
is forwarded whole, and a longer body is silently truncated to the
first `body_limit` bytes and still forwarded — no error, no 413, and the
upstream call proceeds. -/
theorem C2_body_cap (method : Method) (path : List String) (query : Option String)
    (bytes : List UInt8) (inHeaders : Headers) (hm : supportedMethod method = true) :
    buildRequest method path query (some ⟨bytes, false⟩) inHeaders
      = .ok ⟨method, buildUrl path query,
             injected_headers ++ forwardHeaders inHeaders,
             some (bytes.take body_limit)⟩
    ∧ (bytes.length ≤ body_limit → bytes.take body_limit = bytes) := by
  constructor
  · simp [buildRequest, hm]
  · exact fun h => List.take_of_length_le h

/-- Applies `C2_body_cap` to a concrete two-byte POST body. -/
theorem C2_body_cap_witness :
    buildRequest .Post [] none (some ⟨[(1 : UInt8), 2], false⟩) []
      = .ok ⟨.Post, buildUrl [] none,
             injected_headers ++ forwardHeaders [],
             some (([(1 : UInt8), 2]).take body_limit)⟩
    ∧ (([(1 : UInt8), 2] : List UInt8).length ≤ body_limit →
        ([(1 : UInt8), 2] : List UInt8).take body_limit = [(1 : UInt8), 2]) :=
  C2_body_cap .Post [] none [1, 2] [] rfl

/-- C3 as written fails: an out-of-range upstream status (here 999) is
normalized by `Status::from_code(..).unwrap_or(Status::InternalServerError)`
to 500, not to the claimed 502. -/
theorem C3_counterexample :
    handle_request .Get [] none none [] (fun _ => .ok 999 [] (.ok []))
      = .ok ⟨500, "application/octet-stream", [], []⟩
    ∧ (500 : Nat) ≠ 502 :=
  ⟨rfl, by decide⟩

/-- C3 amended: the outbound status equals the upstream status when it
lies in 100..=599, and equals 500 (`InternalServerError`) — not 502 —
for any upstream status outside that range; an invalid status is never
propagated. -/
theorem C3_status_normalization (method : Method) (path : List String)
    (query : Option String) (data : Option InboundData) (inHeaders : Headers)
    (upStatus : Nat) (upHeaders : Headers) (bodyBytes : List UInt8)
    (resp : ProxyResponse)
    (h : handle_request method path query data inHeaders
          (fun _ => .ok upStatus upHeaders (.ok bodyBytes)) = .ok resp) :
    resp.status = if 100 ≤ upStatus ∧ upStatus ≤ 599 then upStatus else 500 := by
  rw [handle_request_ok h]
  by_cases hr : 100 ≤ upStatus ∧ upStatus ≤ 599 <;>
    simp [Status.from_code, hr]

/-- Applies `C3_status_normalization` to a concrete 200 response. -/
theorem C3_status_normalization_witness :
    (⟨200, "application/octet-stream", [], []⟩ : ProxyResponse).status
      = if 100 ≤ 200 ∧ (200 : Nat) ≤ 599 then 200 else 500 :=
  C3_status_normalization .Get [] none none [] 200 [] []
    ⟨200, "application/octet-stream", [], []⟩ rfl

/-- C4 as written fails: the deny set of the code has a fifth entry,
`x-frame-options`, so an inbound `X-Frame-Options` header — whose name
is not in the claimed four-element deny set — does not appear on the
outbound upstream request. -/
theorem C4_counterexample :
    buildRequest .Get [] none none [("X-Frame-Options", "DENY")]
      = .ok ⟨.Get, "https://www.roblox.com/", injected_headers, none⟩
    ∧ lowerName "X-Frame-Options" ∉
        (["host", "content-length", "connection", "transfer-encoding"] : List String) :=
  ⟨rfl, by decide⟩

/-- C4 amended: for every header name whose lowercasing is outside the
five-element deny set `excluded_headers` (`host`, `connection`,
`content-length`, `x-frame-options`, `transfer-encoding`), an inbound
header appears with identical name and value on the outbound upstream
request, and an upstream response header appears with identical name
and value on the outbound response. -/
theorem C4_header_roundtrip (method : Method) (path : List String)
    (query : Option String) (data : Option InboundData) (inHeaders : Headers)
    (req : OutboundUpstreamRequest) (upStatus : Nat) (upHeaders : Headers)
    (bodyBytes : List UInt8) (resp : ProxyResponse) (n v : String)
    (hn : excluded_headers.contains (lowerName n) = false)
    (hreq : buildRequest method path query data inHeaders = .ok req)
    (hresp : handle_request method path query data inHeaders
              (fun _ => .ok upStatus upHeaders (.ok bodyBytes)) = .ok resp) :
    ((n, v) ∈ inHeaders → (n, v) ∈ req.headers)
    ∧ ((n, v) ∈ upHeaders → (n, v) ∈ resp.headers) := by
  have h1 := buildRequest_ok_headers hreq
  have h2 : resp.headers = forwardHeaders upHeaders := by rw [handle_request_ok hresp]
  rw [h1, h2]
  constructor
  · exact fun hv => List.mem_append_right _ (mem_forwardHeaders.mpr ⟨hv, hn⟩)
  · exact fun hv => mem_forwardHeaders.mpr ⟨hv, hn⟩

/-- Applies `C4_header_roundtrip` to a concrete `x-custom` header
carried through both directions of a GET exchange. -/
theorem C4_header_roundtrip_witness :
    (("x-custom", "1") ∈ ([("x-custom", "1")] : Headers) →
      ("x-custom", "1") ∈ (OutboundUpstreamRequest.mk .Get (buildUrl [] none)
        (injected_headers ++ forwardHeaders [("x-custom", "1")]) none).headers)
    ∧ (("x-custom", "1") ∈ ([("x-custom", "1")] : Headers) →
      ("x-custom", "1") ∈ (ProxyResponse.mk 200 "application/octet-stream" []
        (forwardHeaders [("x-custom", "1")])).headers) :=
  C4_header_roundtrip .Get [] none none [("x-custom", "1")]
    (OutboundUpstreamRequest.mk .Get (buildUrl [] none)
      (injected_headers ++ forwardHeaders [("x-custom", "1")]) none)
    200 [("x-custom", "1")] []
    (ProxyResponse.mk 200 "application/octet-stream" []
      (forwardHeaders [("x-custom", "1")]))
    "x-custom" "1" (by decide) rfl rfl

/-- C5: no header named `host`, `connection`, `content-length` or
`transfer-encoding` — under any input casing — ever appears among the
headers of the outbound upstream request or of the outbound response. -/
theorem C5_deny_enforced (method : Method) (path : List String)
    (query : Option String) (data : Option InboundData) (inHeaders : Headers)
    (req : OutboundUpstreamRequest) (upStatus : Nat) (upHeaders : Headers)
    (bodyBytes : List UInt8) (resp : ProxyResponse) (n v : String)
    (hreq : buildRequest method path query data inHeaders = .ok req)
    (hresp : handle_request method path query data inHeaders
              (fun _ => .ok upStatus upHeaders (.ok bodyBytes)) = .ok resp)
    (hmem : (n, v) ∈ req.headers ∨ (n, v) ∈ resp.headers) :
    lowerName n ≠ "host" ∧ lowerName n ≠ "connection" ∧
      lowerName n ≠ "content-length" ∧ lowerName n ≠ "transfer-encoding" := by
  have h1 := buildRequest_ok_headers hreq
  have h2 : resp.headers = forwardHeaders upHeaders := by rw [handle_request_ok hresp]
  rw [h1, h2] at hmem
  have key : ∀ hs : Headers, (n, v) ∈ forwardHeaders hs →
      lowerName n ≠ "host" ∧ lowerName n ≠ "connection" ∧
        lowerName n ≠ "content-length" ∧ lowerName n ≠ "transfer-encoding" := by
    intro hs hm
    have h := ne_of_contains_false (mem_forwardHeaders.mp hm).2
    exact ⟨h.1, h.2.1, h.2.2.1, h.2.2.2.2⟩
  rcases hmem with hm | hm
  · rcases List.mem_append.mp hm with hm | hm
    · have : (n = "Roblox-Proxy-Debug" ∧ v = "true") ∨ (n = "Accept" ∧ v = "*/*") := by
        simpa [injected_headers] using hm
      rcases this with ⟨rfl, -⟩ | ⟨rfl, -⟩ <;> refine ⟨?_, ?_, ?_, ?_⟩ <;> decide
    · exact key inHeaders hm
  · exact key upHeaders hm

/-- Applies `C5_deny_enforced` to a concrete forwarded header of a GET
exchange whose inbound side also carried a `Host` header. -/
theorem C5_deny_enforced_witness :
    lowerName "x-thing" ≠ "host" ∧ lowerName "x-thing" ≠ "connection" ∧
      lowerName "x-thing" ≠ "content-length" ∧ lowerName "x-thing" ≠ "transfer-encoding" :=
  C5_deny_enforced .Get [] none none [("Host", "a"), ("x-thing", "2")]
    (OutboundUpstreamRequest.mk .Get (buildUrl [] none)
      (injected_headers ++ forwardHeaders [("Host", "a"), ("x-thing", "2")]) none)
    204 [] []
    (ProxyResponse.mk 204 "application/octet-stream" [] (forwardHeaders []))
    "x-thing" "2" rfl rfl (Or.inl (by decide))

/-- C6: the upstream URL is the fixed base URL, a slash, and the joined
path segments; a present, non-empty raw query string is appended after
a question mark byte-for-byte, with no decoding or re-encoding. -/
theorem C6_url_shape (path : List String) :
    buildUrl path none = "https://www.roblox.com/" ++ String.intercalate "/" path
    ∧ ∀ q : String, q ≠ "" →
        buildUrl path (some q)
          = "https://www.roblox.com/" ++ String.intercalate "/" path ++ "?" ++ q :=
  ⟨rfl, fun _ _ => rfl⟩

/-- Applies `C6_url_shape` to the path `users/1` and the already-escaped
query string of the claim, which survives unchanged. -/
theorem C6_url_shape_witness :
    buildUrl ["users", "1"] none
      = "https://www.roblox.com/" ++ String.intercalate "/" ["users", "1"]
    ∧ ("a=1&b=%20" ≠ "" ∧ buildUrl ["users", "1"] (some "a=1&b=%20")
        = "https://www.roblox.com/" ++ String.intercalate "/" ["users", "1"]
            ++ "?" ++ "a=1&b=%20") :=
  ⟨(C6_url_shape ["users", "1"]).1, by decide,
    (C6_url_shape ["users", "1"]).2 "a=1&b=%20" (by decide)⟩

/-- C7 as written fails: a timeout does produce the `upstreamTimeout`
error, but `ErrorResponse::respond_to` maps it to 500, not 504. -/
theorem C7_counterexample :
    handle_request .Get ["users"] none none [] (fun _ => .timeout)
      = .error .upstreamTimeout
    ∧ (ErrorResponse.respond_to .upstreamTimeout).status = 500
    ∧ (500 : Nat) ≠ 504 :=
  ⟨rfl, rfl, by decide⟩

/-- C7 amended: when the per-call deadline expires, the call fails with
`upstreamTimeout`, mapped to outbound status 500 (not 504), and no
upstream response body reaches the caller — the response body is the
fixed diagnostic text. -/
theorem C7_timeout (method : Method) (path : List String) (query : Option String)
    (data : Option InboundData) (inHeaders : Headers) (req : OutboundUpstreamRequest)
    (hreq : buildRequest method path query data inHeaders = .ok req) :
    handle_request method path query data inHeaders (fun _ => .timeout)
      = .error .upstreamTimeout
    ∧ ErrorResponse.respond_to .upstreamTimeout
      = ⟨500, "text/plain", "Internal Server Error"⟩ := by
  constructor
  · unfold handle_request
    rw [hreq]
  · rfl

/-- Applies `C7_timeout` to a concrete bodyless GET call. -/
theorem C7_timeout_witness :
    handle_request .Get [] none none [] (fun _ => .timeout)
      = .error .upstreamTimeout
    ∧ ErrorResponse.respond_to .upstreamTimeout
      = ⟨500, "text/plain", "Internal Server Error"⟩ :=
  C7_timeout .Get [] none none []
    (OutboundUpstreamRequest.mk .Get (buildUrl [] none)
      (injected_headers ++ forwardHeaders []) none) rfl

/-- C8: the outbound content type equals the upstream `content-type`
header value when present and `application/octet-stream` when absent,
and the response body bytes are copied verbatim. -/
theorem C8_content_type_and_body (method : Method) (path : List String)
    (query : Option String) (data : Option InboundData) (inHeaders : Headers)
    (upStatus : Nat) (upHeaders : Headers) (bodyBytes : List UInt8)
    (resp : ProxyResponse)
    (h : handle_request method path query data inHeaders
          (fun _ => .ok upStatus upHeaders (.ok bodyBytes)) = .ok resp) :
    (∀ ct, headerGet upHeaders "content-type" = some ct → resp.content_type = ct)
    ∧ (headerGet upHeaders "content-type" = none →
        resp.content_type = "application/octet-stream")
    ∧ resp.body = bodyBytes := by
  rw [handle_request_ok h]
  refine ⟨fun ct hct => ?_, fun hct => ?_, rfl⟩
  · simp [hct]
  · simp [hct]

/-- Applies `C8_content_type_and_body` to a concrete JSON response. -/
theorem C8_content_type_and_body_witness :
    (∀ ct, headerGet [("Content-Type", "application/json")] "content-type" = some ct →
      (ProxyResponse.mk 200 "application/json" [123]
        (forwardHeaders [("Content-Type", "application/json")])).content_type = ct)
    ∧ (headerGet [("Content-Type", "application/json")] "content-type" = none →
        (ProxyResponse.mk 200 "application/json" [123]
          (forwardHeaders [("Content-Type", "application/json")])).content_type
          = "application/octet-stream")
    ∧ (ProxyResponse.mk 200 "application/json" [123]
        (forwardHeaders [("Content-Type", "application/json")])).body = [123] :=
  C8_content_type_and_body .Get [] none none [] 200
    [("Content-Type", "application/json")] [123]
    (ProxyResponse.mk 200 "application/json" [123]
      (forwardHeaders [("Content-Type", "application/json")])) rfl

/-- C9: any two errored calls produce identical outbound error
responses; the body is the fixed text `Internal Server Error` and never
equals the underlying cause message that is only logged. -/
theorem C9_uniform_error_body (e₁ e₂ : ProxyError) :
    ErrorResponse.respond_to e₁ = ErrorResponse.respond_to e₂
    ∧ (ErrorResponse.respond_to e₁).body = "Internal Server Error"
    ∧ (ErrorResponse.respond_to e₁).body ≠ errorMessage e₁ := by
  refine ⟨rfl, rfl, ?_⟩
  cases e₁ <;> decide

/-- C10: every successfully built outbound upstream request starts with
the two injected debug headers `Roblox-Proxy-Debug: true` and
`Accept: */*`, placed before any forwarded inbound header. -/
theorem C10_injected_headers (method : Method) (path : List String)
    (query : Option String) (data : Option InboundData) (inHeaders : Headers)
    (req : OutboundUpstreamRequest)
    (hreq : buildRequest method path query data inHeaders = .ok req) :
    req.headers.take 2 = [("Roblox-Proxy-Debug", "true"), ("Accept", "*/*")]
    ∧ ("Roblox-Proxy-Debug", "true") ∈ req.headers
    ∧ ("Accept", "*/*") ∈ req.headers := by
  rw [buildRequest_ok_headers hreq]
  refine ⟨rfl, ?_, ?_⟩
  · exact List.mem_append_left _ (by decide)
  · exact List.mem_append_left _ (by decide)

/-- Applies `C10_injected_headers` to a concrete POST call carrying an
inbound header of its own. -/
theorem C10_injected_headers_witness :
    (OutboundUpstreamRequest.mk .Post (buildUrl ["x"] none)
      (injected_headers ++ forwardHeaders [("Cookie", "c")])
      (some (([] : List UInt8).take body_limit))).headers.take 2
      = [("Roblox-Proxy-Debug", "true"), ("Accept", "*/*")]
    ∧ ("Roblox-Proxy-Debug", "true") ∈
        (OutboundUpstreamRequest.mk .Post (buildUrl ["x"] none)
          (injected_headers ++ forwardHeaders [("Cookie", "c")])
          (some (([] : List UInt8).take body_limit))).headers
    ∧ ("Accept", "*/*") ∈
        (OutboundUpstreamRequest.mk .Post (buildUrl ["x"] none)
          (injected_headers ++ forwardHeaders [("Cookie", "c")])
          (some (([] : List UInt8).take body_limit))).headers :=
  C10_injected_headers .Post ["x"] none (some ⟨[], false⟩) [("Cookie", "c")]
    (OutboundUpstreamRequest.mk .Post (buildUrl ["x"] none)
      (injected_headers ++ forwardHeaders [("Cookie", "c")])
      (some (([] : List UInt8).take body_limit))) rfl

end RoProxy
